import Mathlib

/-!
Verification of the `openlogprobs` model-wrapper module
(`openlogprobs/models.py`) against its specification.

The Python module is shallowly embedded:
* Python dicts with insertion order become association lists
  (`List (Nat × ℚ)` for token-id-keyed log-probability maps);
* floats become rationals (the code only moves values around and takes
  medians, so no float rounding behaviour is relevant to the claims);
* exceptions become `Except PyErr` / `Option` results;
* the remote API client is an abstract parameter (a function from the
  attempt index to the outcome of that attempt's network call);
* `time.sleep` and the network calls are recorded in an explicit trace.
-/

namespace OpenLogProbs

/-- Python exception kinds that the module raises or handles.
`indexError` is how an empty-choices API response surfaces
(`response.choices[0]` on an empty list); it is the only exception the
retry loop in `topk` catches. -/
inductive PyErr where
  | indexError
  | notImplementedError (msg : String)
  | typeError (msg : String)
  | apiError (msg : String)
  deriving DecidableEq, Repr

/-- Canonical token-id → log-probability map (a Python dict in insertion
order). -/
abbrev LogProbMap := List (Nat × ℚ)

/-- Python dict lookup `d[w]` for a token-id-keyed map: first matching
key wins (dicts never hold duplicate keys, so this is unambiguous). -/
def dictLookup (d : LogProbMap) (w : Nat) : Option ℚ :=
  match d with
  | [] => none
  | (k, v) :: rest => if k = w then some v else dictLookup rest w

/-- Insert one ascending-sorted element (helper for `sortAsc`). -/
def insertSorted (x : ℚ) : List ℚ → List ℚ
  | [] => [x]
  | y :: ys => if x ≤ y then x :: y :: ys else y :: insertSorted x ys

/-- Ascending sort of a list of rationals (the order `np.median`
conceptually sorts its input into). -/
def sortAsc : List ℚ → List ℚ
  | [] => []
  | x :: xs => insertSorted x (sortAsc xs)

/-- `np.median` on a one-dimensional array: sort ascending, take the
middle element for odd length, the mean of the two middle elements for
even length; undefined (NaN) on an empty array, modelled as `none`. -/
def npMedian (xs : List ℚ) : Option ℚ :=
  let s := sortAsc xs
  let n := s.length
  if n = 0 then none
  else if n % 2 = 1 then s[n / 2]?
  else match s[n / 2 - 1]?, s[n / 2]? with
    | some a, some b => some ((a + b) / 2)
    | _, _ => none

/-- `np.median()` invoked with zero arguments, as `median_argmax` does:
Python raises `TypeError: median() missing 1 required positional
argument: 'a'` before any value can be produced. -/
def npMedianZeroArgs : Except PyErr ℚ :=
  .error (.typeError "median() missing 1 required positional argument: 'a'")

/-- A Python dict comprehension `{w : f(w) for w in keys}` whose body may
raise (e.g. a `KeyError` from a dict lookup, modelled as `none`): the
first failure aborts the whole comprehension. -/
def pyDictComp (keys : List Nat) (f : Nat → Option ℚ) : Option LogProbMap :=
  match keys with
  | [] => some []
  | w :: ws =>
    match f w, pyDictComp ws f with
    | some v, some rest => some ((w, v) :: rest)
    | _, _ => none

/-- The list comprehension `[result[word] for result in results]`:
`KeyError` (a missing key in any of the maps) aborts it. -/
def lookupAll (rs : List LogProbMap) (w : Nat) : Option (List ℚ) :=
  match rs with
  | [] => some []
  | r :: rest =>
    match dictLookup r w, lookupAll rest w with
    | some v, some vs => some (v :: vs)
    | _, _ => none

/-- Body of `Model.median_topk` once the `k` sub-query results have been
collected: `{word: np.median([result[word] for result in results]) for
word in results[0].keys()}`. `results[0]` on an empty list raises
`IndexError`, modelled as `none`. -/
def medianTopkOfResults (results : List LogProbMap) : Option LogProbMap :=
  match results with
  | [] => none
  | r0 :: rest =>
    pyDictComp (r0.map Prod.fst)
      (fun w => (lookupAll (r0 :: rest) w).bind npMedian)

/-- `Model.median_topk(k, ...)`: run the same topk query `k` times
(`query i` is the map returned by the `i`-th repetition) and reduce by
per-key median over the key set of the first result. -/
def median_topk (k : Nat) (query : Nat → LogProbMap) : Option LogProbMap :=
  medianTopkOfResults ((List.range k).map query)

/-- `Model.median_argmax(k, ...)` exactly as written in the source:
`results = [self.argmax(*args, **kwargs) for _ in range(k)]` followed by
`return np.median()` — the results list is computed and then discarded,
and `np.median` is called with no arguments. -/
def median_argmax (k : Nat) (query : Nat → Nat) : Except PyErr ℚ :=
  let _results := (List.range k).map query
  npMedianZeroArgs

/-! ## Dispatch and the retrying `topk` -/

/-- The legacy-completion model family, the tuple in
`self.model in ("gpt-3.5-turbo-instruct", "babbage-002", "davinci-002")`. -/
def instructFamily : List String := ["gpt-3.5-turbo-instruct", "babbage-002", "davinci-002"]

/-- Python `s.startswith(pat)`. -/
def pyStartsWith (s pat : String) : Bool :=
  startAux s.data pat.data
where
  startAux : List Char → List Char → Bool
    | _, [] => true
    | [], _ :: _ => false
    | c :: cs, p :: ps => c = p && startAux cs ps

/-- The two response-shape branches `topk` can dispatch to. -/
inductive Branch where
  | instruct
  | chat
  deriving DecidableEq, Repr

/-- The dispatch performed inside `topk`'s loop body: membership in the
legacy tuple is tested first, then the `gpt-4`/`gpt-3` chat test;
anything else falls to the `raise NotImplementedError` arm (`none`). -/
def dispatch (model : String) : Option Branch :=
  if model ∈ instructFamily then some .instruct
  else if pyStartsWith model "gpt-4" || pyStartsWith model "gpt-3" then some .chat
  else none

/-- What a call to `topk` produced: a Python return value (where
`retVal none` is the implicit `None` fall-through after the retry loop)
or a raised exception. -/
inductive TopkResult where
  | retVal (m : Option LogProbMap)
  | raised (e : PyErr)
  deriving DecidableEq, Repr

/-- Observable trace of one `topk` call: its outcome, the `time.sleep`
durations performed in order, and the sequence of network sub-calls
issued (identified by the branch that issued them). -/
structure TopkTrace where
  result : TopkResult
  sleeps : List Nat
  calls : List Branch
  deriving DecidableEq, Repr

/-- The body of `Model.topk`'s `for i in range(self.max_api_retries)`
loop, at loop index `i` with `remaining` iterations left. `backend br i`
is the outcome of the network call (request plus response normalization)
the branch `br` would perform on attempt `i`. Only `IndexError` — an
empty `response.choices` — is caught; it triggers a
`time.sleep(10 * (i + 1))` and the next iteration. `NotImplementedError`
from an unknown model and every other exception propagate at once. When
the loop exhausts its iterations the function returns `None`. -/
def topkLoop (model : String) (backend : Branch → Nat → Except PyErr LogProbMap)
    (i : Nat) : Nat → TopkTrace
  | 0 => ⟨.retVal none, [], []⟩
  | remaining + 1 =>
    match dispatch model with
    | none =>
      ⟨.raised (.notImplementedError ("Tried to get topk logprobs for: " ++ model)), [], []⟩
    | some br =>
      match backend br i with
      | .ok m => ⟨.retVal (some m), [], [br]⟩
      | .error .indexError =>
        let t := topkLoop model backend (i + 1) remaining
        ⟨t.result, 10 * (i + 1) :: t.sleeps, br :: t.calls⟩
      | .error e => ⟨.raised e, [], [br]⟩

/-- `OpenAIModel.max_api_retries`, set in the constructor. -/
def max_api_retries : Nat := 5

/-- `Model.topk(prefix, logit_bias)` with the network abstracted:
`backend br i` is the outcome attempt `i` would observe on branch `br`. -/
def topk (model : String) (backend : Branch → Nat → Except PyErr LogProbMap) : TopkTrace :=
  topkLoop model backend 0 max_api_retries

/-! ## The requests built by `argmax` and the topk helpers -/

/-- The value of the Python `logit_bias` parameter: either `None` or a
dict (possibly empty). Token keys are modelled as `Nat`. -/
inductive PyBias where
  | pyNone
  | pyDict (d : List (Nat × ℚ))
  deriving DecidableEq, Repr

/-- The default for the `logit_bias` parameter when the caller does not
supply it: the empty dict `{}` from the `def argmax(self, prefix,
logit_bias = {})` signatures. -/
def defaultLogitBias : PyBias := .pyDict []

/-- The keyword arguments of one `client.completions.create` /
`client.chat.completions.create` call. `none` in an `Option` field means
the keyword is absent from the request. -/
structure ApiRequest where
  model : String
  prompt : Option String
  messages : Option (List (String × String))
  temperature : ℚ
  max_tokens : Nat
  logit_bias : Option (List (Nat × ℚ))
  n : Option Nat
  logprobs : Option Nat
  top_logprobs : Option Nat
  deriving DecidableEq, Repr

/-- The request `Model.argmax` issues. The branch on
`model == "gpt-3.5-turbo-instruct"` picks completion versus chat form;
within each branch `if logit_bias is not None` decides whether the
`logit_bias` keyword is passed — and the dict it passes is the
parameter's dict, empty or not. -/
def argmaxRequest (model system pfx : String) (logit_bias : PyBias) : ApiRequest :=
  if model = "gpt-3.5-turbo-instruct" then
    match logit_bias with
    | .pyDict d =>
      ⟨model, some pfx, none, 0, 1, some d, some 1, none, none⟩
    | .pyNone =>
      ⟨model, some pfx, none, 0, 1, none, some 1, none, none⟩
  else
    match logit_bias with
    | .pyDict d =>
      ⟨model, none, some [("system", system), ("user", pfx)], 0, 1, some d, some 1, none, none⟩
    | .pyNone =>
      ⟨model, none, some [("system", system), ("user", pfx)], 0, 1, none, some 1, none, none⟩

/-- The request `OpenAIModel._instruct_logprobs` issues (temperature 1,
`logprobs=5`); again `if logit_bias is not None` decides only between
passing the dict as-is and omitting the keyword. -/
def instructLogprobsRequest (model pfx : String) (logit_bias : PyBias) : ApiRequest :=
  match logit_bias with
  | .pyDict d => ⟨model, some pfx, none, 1, 1, some d, none, some 5, none⟩
  | .pyNone => ⟨model, some pfx, none, 1, 1, none, none, some 5, none⟩

/-- The request `OpenAIModel._chat_logprobs` issues (temperature 1,
`logprobs=True` rendered as requesting logprobs, `top_logprobs=5`). -/
def chatLogprobsRequest (model system pfx : String) (logit_bias : PyBias) : ApiRequest :=
  match logit_bias with
  | .pyDict d =>
    ⟨model, none, some [("system", system), ("user", pfx)], 1, 1, some d, none, some 1, some 5⟩
  | .pyNone =>
    ⟨model, none, some [("system", system), ("user", pfx)], 1, 1, none, none, some 1, some 5⟩

/-! ## The response normalizer -/

/-- Python dict assignment `d[k] = v`: an existing key keeps its
position and gets the new value, a new key is appended. -/
def dictInsert (d : LogProbMap) (k : Nat) (v : ℚ) : LogProbMap :=
  if (d.map Prod.fst).contains k then
    d.map (fun p => if p.1 = k then (k, v) else p)
  else d ++ [(k, v)]

/-- The normalizing comprehension shared by `_instruct_logprobs` and
`_chat_logprobs`: `{self.encoding.encode(x)[0]: y for x, y in
topk_dict.items()}`. Each entry's surface text is re-encoded and the
first resulting token id keys the output; `encode(x)[0]` on an empty
encoding raises `IndexError` (`none`). `d` is the dict built so far. -/
def normalizeFrom (encode : String → List Nat) (d : LogProbMap) :
    List (String × ℚ) → Option LogProbMap
  | [] => some d
  | (x, y) :: rest =>
    match (encode x).head? with
    | some t => normalizeFrom encode (dictInsert d t y) rest
    | none => none

/-- The full normalizer: fold the raw `(text, logprob)` entries into a
fresh dict. -/
def normalizeLogprobs (encode : String → List Nat) (entries : List (String × ℚ)) :
    Option LogProbMap :=
  normalizeFrom encode [] entries

/-! ## Helper lemmas -/

theorem length_insertSorted (x : ℚ) (l : List ℚ) :
    (insertSorted x l).length = l.length + 1 := by
  induction l with
  | nil => rfl
  | cons y ys ih =>
    by_cases h : x ≤ y <;> simp [insertSorted, h, ih]

theorem length_sortAsc (l : List ℚ) : (sortAsc l).length = l.length := by
  induction l with
  | nil => rfl
  | cons x xs ih => simp [sortAsc, length_insertSorted, ih]

theorem npMedian_singleton (v : ℚ) : npMedian [v] = some v := by
  simp [npMedian, sortAsc, insertSorted]

theorem npMedian_isSome {xs : List ℚ} (h : xs ≠ []) : (npMedian xs).isSome := by
  have hlen : (sortAsc xs).length = xs.length := length_sortAsc xs
  have hpos : 0 < (sortAsc xs).length := by
    rw [hlen]; exact List.length_pos.mpr h
  unfold npMedian
  by_cases h0 : (sortAsc xs).length = 0
  · omega
  · simp only [h0, if_false]
    by_cases hodd : (sortAsc xs).length % 2 = 1
    · have hlt : (sortAsc xs).length / 2 < (sortAsc xs).length :=
        Nat.div_lt_self hpos (by norm_num)
      simp only [hodd, if_true]
      rw [List.getElem?_eq_getElem hlt]; rfl
    · have h2 : 2 ≤ (sortAsc xs).length := by omega
      have hlt1 : (sortAsc xs).length / 2 - 1 < (sortAsc xs).length := by
        have := Nat.div_le_self (sortAsc xs).length 2; omega
      have hlt2 : (sortAsc xs).length / 2 < (sortAsc xs).length :=
        Nat.div_lt_self hpos (by norm_num)
      simp only [hodd, if_false]
      rw [List.getElem?_eq_getElem hlt1, List.getElem?_eq_getElem hlt2]
      rfl

theorem pyDictComp_spec (keys : List Nat) (f : Nat → Option ℚ)
    (hf : ∀ w ∈ keys, (f w).isSome) :
    ∃ out, pyDictComp keys f = some out ∧ out.map Prod.fst = keys ∧
      ∀ p ∈ out, f p.1 = some p.2 := by
  induction keys with
  | nil => exact ⟨[], rfl, rfl, by simp⟩
  | cons w ws ih =>
    obtain ⟨v, hv⟩ := Option.isSome_iff_exists.mp (hf w (by simp))
    obtain ⟨out, hout, hkeys, hvals⟩ := ih (fun u hu => hf u (by simp [hu]))
    refine ⟨(w, v) :: out, ?_, ?_, ?_⟩
    · simp [pyDictComp, hv, hout]
    · simp [hkeys]
    · intro p hp
      rcases List.mem_cons.mp hp with h | h
      · subst h; exact hv
      · exact hvals p h

theorem pyDictComp_congr (keys : List Nat) (f g : Nat → Option ℚ)
    (h : ∀ w ∈ keys, f w = g w) :
    pyDictComp keys f = pyDictComp keys g := by
  induction keys with
  | nil => rfl
  | cons w ws ih =>
    simp only [pyDictComp]
    rw [h w (by simp), ih (fun u hu => h u (by simp [hu]))]

theorem lookupAll_isSome (rs : List LogProbMap) (w : Nat)
    (h : ∀ r ∈ rs, (dictLookup r w).isSome) :
    ∃ vs, lookupAll rs w = some vs ∧ vs.length = rs.length := by
  induction rs with
  | nil => exact ⟨[], rfl, rfl⟩
  | cons r rest ih =>
    obtain ⟨v, hv⟩ := Option.isSome_iff_exists.mp (h r (by simp))
    obtain ⟨vs, hvs, hlen⟩ := ih (fun s hs => h s (by simp [hs]))
    exact ⟨v :: vs, by simp [lookupAll, hv, hvs], by simp [hlen]⟩

theorem dictLookup_cons_of_ne (k : Nat) (v : ℚ) (l : LogProbMap) (w : Nat)
    (h : k ≠ w) : dictLookup ((k, v) :: l) w = dictLookup l w := by
  simp [dictLookup, h]

theorem pyDictComp_lookup_self (l : LogProbMap) (hn : (l.map Prod.fst).Nodup) :
    pyDictComp (l.map Prod.fst) (fun w => dictLookup l w) = some l := by
  induction l with
  | nil => rfl
  | cons p rest ih =>
    obtain ⟨k, v⟩ := p
    have hk : k ∉ rest.map Prod.fst := (List.nodup_cons.mp hn).1
    have hrest : (rest.map Prod.fst).Nodup := (List.nodup_cons.mp hn).2
    have hcongr :
        pyDictComp (rest.map Prod.fst) (fun w => dictLookup ((k, v) :: rest) w) =
        pyDictComp (rest.map Prod.fst) (fun w => dictLookup rest w) := by
      refine pyDictComp_congr _ _ _ (fun w hw => ?_)
      exact dictLookup_cons_of_ne k v rest w (fun hkw => hk (hkw ▸ hw))
    have hhead : dictLookup ((k, v) :: rest) k = some v := by simp [dictLookup]
    simp only [List.map_cons, pyDictComp]
    rw [hhead, hcongr, ih hrest]

theorem lookupAll_length (rs : List LogProbMap) (w : Nat) (vs : List ℚ)
    (h : lookupAll rs w = some vs) : vs.length = rs.length := by
  induction rs generalizing vs with
  | nil =>
    simp only [lookupAll] at h
    cases h; rfl
  | cons r rest ih =>
    rw [lookupAll] at h
    cases h1 : dictLookup r w with
    | none => rw [h1] at h; cases h
    | some v =>
      rw [h1] at h
      cases h2 : lookupAll rest w with
      | none => rw [h2] at h; cases h
      | some vs' =>
        rw [h2] at h
        cases h
        simp [ih vs' h2]

theorem medianTopkOfResults_head (results : List LogProbMap) (r0 : LogProbMap)
    (h : results.head? = some r0) :
    medianTopkOfResults results =
      pyDictComp (r0.map Prod.fst) (fun w => (lookupAll results w).bind npMedian) := by
  cases results with
  | nil => cases h
  | cons a rest =>
    have : a = r0 := by simpa using h
    subst this
    rfl

theorem topkLoop_calls_all_eq (model : String)
    (backend : Branch → Nat → Except PyErr LogProbMap) (br : Branch)
    (hd : dispatch model = some br) :
    ∀ (remaining i : Nat), ∀ b ∈ (topkLoop model backend i remaining).calls, b = br := by
  intro remaining
  induction remaining with
  | zero =>
    intro i b hb
    simp [topkLoop] at hb
  | succ r ih =>
    intro i b hb
    simp only [topkLoop, hd] at hb
    cases hbi : backend br i with
    | ok m =>
      simp [hbi] at hb
      simp [hb]
    | error e =>
      cases e with
      | indexError =>
        simp [hbi] at hb
        rcases hb with rfl | hb
        · rfl
        · exact ih (i + 1) b hb
      | notImplementedError msg => simp [hbi] at hb; simp [hb]
      | typeError msg => simp [hbi] at hb; simp [hb]
      | apiError msg => simp [hbi] at hb; simp [hb]

theorem mem_dictInsert {d : LogProbMap} {k : Nat} {v : ℚ} {p : Nat × ℚ}
    (hp : p ∈ dictInsert d k v) : p = (k, v) ∨ p ∈ d := by
  unfold dictInsert at hp
  by_cases hc : (d.map Prod.fst).contains k
  · rw [if_pos hc] at hp
    obtain ⟨q, hq, hpq⟩ := List.mem_map.mp hp
    by_cases hqk : q.1 = k
    · left; rw [← hpq]; simp [hqk]
    · right; rw [← hpq]; simp only [if_neg hqk]; exact hq
  · rw [if_neg hc] at hp
    rcases List.mem_append.mp hp with h | h
    · right; exact h
    · left; simpa using h

theorem normalizeFrom_spec (encode : String → List Nat) :
    ∀ (entries : List (String × ℚ)) (d out : LogProbMap),
      normalizeFrom encode d entries = some out →
      ∀ p ∈ out,
        p ∈ d ∨ ∃ xy ∈ entries, (encode xy.1).head? = some p.1 ∧ p.2 = xy.2 := by
  intro entries
  induction entries with
  | nil =>
    intro d out h p hp
    rw [normalizeFrom] at h
    cases h
    exact Or.inl hp
  | cons e rest ih =>
    intro d out h p hp
    obtain ⟨x, y⟩ := e
    rw [normalizeFrom] at h
    cases ht : (encode x).head? with
    | none => rw [ht] at h; cases h
    | some t =>
      rw [ht] at h
      rcases ih (dictInsert d t y) out h p hp with hd | ⟨xy, hxy, hkey, hval⟩
      · rcases mem_dictInsert hd with heq | hmem
        · right
          refine ⟨(x, y), by simp, ?_, ?_⟩
          · rw [heq]; exact ht
          · rw [heq]
        · exact Or.inl hmem
      · exact Or.inr ⟨xy, by simp [hxy], hkey, hval⟩

/-! ## Claim theorems -/

/-- C1: the claim says `median_argmax(k, ...)` issues `k` argmax queries
and returns the median of the `k` token ids. The code does issue the `k`
queries, but then executes `return np.median()` — `np.median` applied to
no arguments — which raises `TypeError` unconditionally: `median_argmax`
never returns a token id. At the failing input `k = 1` with an argmax
stub constantly answering token 7, the call raises `TypeError` where the
claim demands the median `7`; the second conjunct shows what the
intended median of that sample would have been. -/
theorem c1_median_argmax_always_raises :
    (∀ (k : Nat) (query : Nat → Nat),
        median_argmax k query =
          Except.error
            (PyErr.typeError "median() missing 1 required positional argument: 'a'")) ∧
    npMedian [(7 : ℚ)] = some 7 :=
  ⟨fun _ _ => rfl, npMedian_singleton 7⟩

/-- C2 counterexample: with a backend whose every attempt fails with an
empty response (`IndexError`), `topk` performs exactly
`max_api_retries = 5` attempts and then *returns* Python `None` — it
does not raise any `RetriesExhausted`-style failure, so the claim's ban
on returning an undefined/absent value is violated. -/
theorem c2_exhaustion_returns_none_counterexample :
    (topk "gpt-4" (fun _ _ => Except.error PyErr.indexError)).result =
        TopkResult.retVal none ∧
    (topk "gpt-4" (fun _ _ => Except.error PyErr.indexError)).calls.length = 5 := by
  decide

/-- C2 (amended): if every attempt of a `topk` query fails with
`EmptyResponse`, `topk` performs exactly `max_attempts = 5` attempts
(with backoff sleeps 10, 20, 30, 40, 50) and then terminates, falling
through the loop and returning Python `None` — it never loops
indefinitely, but it surfaces no `RetriesExhausted` failure, silently
returning an absent value instead. -/
theorem c2_exhaustion_five_attempts_then_none (model : String) (br : Branch)
    (backend : Branch → Nat → Except PyErr LogProbMap)
    (hd : dispatch model = some br)
    (hb : ∀ i, backend br i = Except.error PyErr.indexError) :
    topk model backend =
      ⟨TopkResult.retVal none, [10, 20, 30, 40, 50], [br, br, br, br, br]⟩ := by
  simp [topk, max_api_retries, topkLoop, hd, hb]

/-- Witness for C2 (amended) at the chat model `"gpt-4"` with an
always-empty backend. -/
theorem c2_exhaustion_witness :
    topk "gpt-4" (fun _ _ => Except.error PyErr.indexError) =
      ⟨TopkResult.retVal none, [10, 20, 30, 40, 50],
        [Branch.chat, Branch.chat, Branch.chat, Branch.chat, Branch.chat]⟩ :=
  c2_exhaustion_five_attempts_then_none "gpt-4" Branch.chat
    (fun _ _ => Except.error PyErr.indexError) (by decide) (fun _ => rfl)

/-- C3 counterexample: when the caller does not supply `logit_bias`, the
Python default `{}` is used, and since `{} is not None` the request
built by `argmax` *does* carry the `logit_bias` keyword (with an empty
bias map) — it is not absent as the claim states. -/
theorem c3_default_bias_present_counterexample :
    (argmaxRequest "gpt-3.5-turbo-instruct" "You are a helpful assistant." "x"
        defaultLogitBias).logit_bias ≠ none := by
  decide

/-- C3 (amended): when the caller does not supply `logit_bias`, the
default `{}` is used and the issued request carries `logit_bias` as an
empty bias map (`some []`); the `logit_bias` keyword is omitted from the
request only when the caller explicitly passes `None`, since every
branch guards only on `logit_bias is not None`. This holds for `argmax`
and for both topk helpers. -/
theorem c3_default_bias_is_empty_map (model system pfx : String) :
    (argmaxRequest model system pfx defaultLogitBias).logit_bias = some [] ∧
    (instructLogprobsRequest model pfx defaultLogitBias).logit_bias = some [] ∧
    (chatLogprobsRequest model system pfx defaultLogitBias).logit_bias = some [] ∧
    (argmaxRequest model system pfx PyBias.pyNone).logit_bias = none ∧
    (instructLogprobsRequest model pfx PyBias.pyNone).logit_bias = none ∧
    (chatLogprobsRequest model system pfx PyBias.pyNone).logit_bias = none := by
  refine ⟨?_, rfl, rfl, ?_, rfl, rfl⟩ <;>
    · by_cases h : model = "gpt-3.5-turbo-instruct" <;>
        simp [argmaxRequest, h, defaultLogitBias]

/-- C6: when attempts 0 and 1 of a `topk` query fail with
`EmptyResponse` and attempt 2 succeeds with map `m`, the call is retried
exactly twice, sleeping `10 * (0 + 1) = 10` and then `10 * (1 + 1) = 20`
time units, and the successful result `m` is returned (three network
calls in total). -/
theorem c6_linear_backoff_then_success (model : String) (br : Branch)
    (backend : Branch → Nat → Except PyErr LogProbMap) (m : LogProbMap)
    (hd : dispatch model = some br)
    (h0 : backend br 0 = Except.error PyErr.indexError)
    (h1 : backend br 1 = Except.error PyErr.indexError)
    (h2 : backend br 2 = Except.ok m) :
    topk model backend = ⟨TopkResult.retVal (some m), [10, 20], [br, br, br]⟩ := by
  simp [topk, max_api_retries, topkLoop, hd, h0, h1, h2]

/-- Witness for C6: a backend that is empty on attempts 0 and 1 and
returns `{7: -1}` on attempt 2. -/
theorem c6_linear_backoff_witness :
    topk "gpt-4"
        (fun _ i => if i < 2 then Except.error PyErr.indexError
          else Except.ok [(7, (-1 : ℚ))]) =
      ⟨TopkResult.retVal (some [(7, (-1 : ℚ))]), [10, 20],
        [Branch.chat, Branch.chat, Branch.chat]⟩ :=
  c6_linear_backoff_then_success "gpt-4" Branch.chat
    (fun _ i => if i < 2 then Except.error PyErr.indexError
      else Except.ok [(7, (-1 : ℚ))])
    [(7, (-1 : ℚ))] (by decide) rfl rfl rfl

/-- C7: a failure of any kind other than `EmptyResponse` (`IndexError`)
raised during a `topk` attempt — network/API failure,
`NotImplementedError`, `TypeError` — propagates to the caller at once:
the trace shows the exception raised after a single network call, with
no sleep and no further attempt. -/
theorem c7_other_failures_propagate (model : String) (br : Branch)
    (backend : Branch → Nat → Except PyErr LogProbMap) (e : PyErr)
    (hd : dispatch model = some br)
    (he : e ≠ PyErr.indexError)
    (hb : backend br 0 = Except.error e) :
    topk model backend = ⟨TopkResult.raised e, [], [br]⟩ := by
  cases e with
  | indexError => exact absurd rfl he
  | notImplementedError msg => simp [topk, max_api_retries, topkLoop, hd, hb]
  | typeError msg => simp [topk, max_api_retries, topkLoop, hd, hb]
  | apiError msg => simp [topk, max_api_retries, topkLoop, hd, hb]

/-- Witness for C7: a network failure on the instruct branch surfaces
immediately with no retry and no sleep. -/
theorem c7_other_failures_witness :
    topk "gpt-3.5-turbo-instruct"
        (fun _ _ => Except.error (PyErr.apiError "network failure")) =
      ⟨TopkResult.raised (PyErr.apiError "network failure"), [], [Branch.instruct]⟩ :=
  c7_other_failures_propagate "gpt-3.5-turbo-instruct" Branch.instruct
    (fun _ _ => Except.error (PyErr.apiError "network failure"))
    (PyErr.apiError "network failure") (by decide) (by decide) rfl

/-- C8: a model identifier outside both the legacy-completion tuple and
the `gpt-4`/`gpt-3` chat family makes `topk` raise
`NotImplementedError` (the `UnsupportedModel` condition) with no network
call issued and no retry/sleep performed: the error is fatal, not a
silent fallback. -/
theorem c8_unknown_model_raises (model : String)
    (backend : Branch → Nat → Except PyErr LogProbMap)
    (h1 : model ∉ instructFamily)
    (h2 : pyStartsWith model "gpt-4" = false)
    (h3 : pyStartsWith model "gpt-3" = false) :
    topk model backend =
      ⟨TopkResult.raised
          (PyErr.notImplementedError ("Tried to get topk logprobs for: " ++ model)),
        [], []⟩ := by
  have hd : dispatch model = none := by
    simp [dispatch, h1, h2, h3]
  simp [topk, max_api_retries, topkLoop, hd]

/-- Witness for C8: `"text-davinci-003"` is in neither family; `topk`
raises `NotImplementedError` with zero network calls even though the
backend would happily answer. -/
theorem c8_unknown_model_witness :
    topk "text-davinci-003" (fun _ _ => Except.ok []) =
      ⟨TopkResult.raised
          (PyErr.notImplementedError
            ("Tried to get topk logprobs for: " ++ "text-davinci-003")),
        [], []⟩ :=
  c8_unknown_model_raises "text-davinci-003" (fun _ _ => Except.ok [])
    (by decide) (by decide) (by decide)

/-- C4: for `k ≥ 1`, when every one of the `k` topk sub-query results
contains every key of the first result, `median_topk` succeeds and
returns a map whose keys are exactly the keys of the first result (keys
only in later results are dropped), each key mapped to the `np.median`
of that key's values across all `k` results. -/
theorem c4_median_topk_first_keys_and_medians (k : Nat) (query : Nat → LogProbMap)
    (hk : 1 ≤ k)
    (hkeys : ∀ i < k, ∀ w ∈ (query 0).map Prod.fst, (dictLookup (query i) w).isSome) :
    ∃ m, median_topk k query = some m ∧
      m.map Prod.fst = (query 0).map Prod.fst ∧
      ∀ p ∈ m, ∃ vals,
        lookupAll ((List.range k).map query) p.1 = some vals ∧
        vals.length = k ∧ npMedian vals = some p.2 := by
  have hhead : ((List.range k).map query).head? = some (query 0) := by
    obtain ⟨k', rfl⟩ : ∃ k', k = k' + 1 := ⟨k - 1, by omega⟩
    simp [List.range_succ_eq_map]
  have hres : ∀ r ∈ (List.range k).map query, ∀ w ∈ (query 0).map Prod.fst,
      (dictLookup r w).isSome := by
    intro r hr w hw
    obtain ⟨i, hi, rfl⟩ := List.mem_map.mp hr
    exact hkeys i (List.mem_range.mp hi) w hw
  have hf : ∀ w ∈ (query 0).map Prod.fst,
      ((lookupAll ((List.range k).map query) w).bind npMedian).isSome := by
    intro w hw
    obtain ⟨vs, hvs, hlen⟩ := lookupAll_isSome _ w (fun r hr => hres r hr w hw)
    have hne : vs ≠ [] := by
      intro hemp
      rw [hemp] at hlen
      simp at hlen
      omega
    rw [hvs]
    exact npMedian_isSome hne
  obtain ⟨out, hout, hkeyset, hvals⟩ := pyDictComp_spec _ _ hf
  refine ⟨out, ?_, hkeyset, ?_⟩
  · rw [median_topk, medianTopkOfResults_head _ _ hhead, hout]
  · intro p hp
    have hbind := hvals p hp
    cases hva : lookupAll ((List.range k).map query) p.1 with
    | none => rw [hva] at hbind; cases hbind
    | some vals =>
      rw [hva] at hbind
      refine ⟨vals, rfl, ?_, hbind⟩
      have := lookupAll_length _ _ _ hva
      simpa using this

/-- Witness for C4: `k = 3` with a stub returning `{7: 0.1}`, `{7: 0.3}`
and `{7: 0.2}` — the spec's own example, whose median for token 7 is
`0.2`. -/
theorem c4_median_topk_witness :
    ∃ m, median_topk 3
        (fun i => [(7, [(1 : ℚ)/10, 3/10, 2/10].getD i 0)]) = some m ∧
      m.map Prod.fst =
        ((fun i => [(7, [(1 : ℚ)/10, 3/10, 2/10].getD i 0)]) 0).map Prod.fst ∧
      ∀ p ∈ m, ∃ vals,
        lookupAll ((List.range 3).map
          (fun i => [(7, [(1 : ℚ)/10, 3/10, 2/10].getD i 0)])) p.1 = some vals ∧
        vals.length = 3 ∧ npMedian vals = some p.2 :=
  c4_median_topk_first_keys_and_medians 3
    (fun i => [(7, [(1 : ℚ)/10, 3/10, 2/10].getD i 0)]) (by decide) (by decide)

/-- C5: `median_topk(1, ...)` is a no-op: with a single repetition the
per-key median of the singleton sample is the sample itself, so the
result is exactly the map the one topk sub-query returned (key-set
nodup, as holds for every Python dict). -/
theorem c5_median_topk_one_is_identity (query : Nat → LogProbMap)
    (hn : ((query 0).map Prod.fst).Nodup) :
    median_topk 1 query = some (query 0) := by
  have h1 : (List.range 1).map query = [query 0] := rfl
  rw [median_topk, h1]
  have hhead : ([query 0] : List LogProbMap).head? = some (query 0) := rfl
  rw [medianTopkOfResults_head _ _ hhead]
  have hcongr : pyDictComp ((query 0).map Prod.fst)
      (fun w => (lookupAll [query 0] w).bind npMedian) =
      pyDictComp ((query 0).map Prod.fst) (fun w => dictLookup (query 0) w) := by
    refine pyDictComp_congr _ _ _ (fun w _ => ?_)
    cases hlv : dictLookup (query 0) w with
    | none => simp [lookupAll, hlv]
    | some v => simp [lookupAll, hlv, npMedian_singleton]
  rw [hcongr]
  exact pyDictComp_lookup_self (query 0) hn

/-- Witness for C5: a deterministic topk stub returning
`{7: 0.1, 3: -2}`; `median_topk 1` reproduces it exactly. -/
theorem c5_median_topk_one_witness :
    median_topk 1 (fun _ => [(7, (1 : ℚ)/10), (3, -2)]) =
      some [(7, (1 : ℚ)/10), (3, -2)] :=
  c5_median_topk_one_is_identity (fun _ => [(7, (1 : ℚ)/10), (3, -2)]) (by decide)

/-- C9: the normalizing comprehension keys every output entry by the
first token id of the re-encoding of some input entry's surface text,
with that entry's log-probability as value; and a single Shape A entry
whose text encodes to exactly one token id `t` normalizes to exactly the
map `{t: logprob}`. -/
theorem c9_normalizer_first_token_key :
    (∀ (encode : String → List Nat) (entries : List (String × ℚ)) (out : LogProbMap),
        normalizeLogprobs encode entries = some out →
        ∀ p ∈ out, ∃ xy ∈ entries, (encode xy.1).head? = some p.1 ∧ p.2 = xy.2) ∧
    (∀ (encode : String → List Nat) (x : String) (y : ℚ) (t : Nat),
        encode x = [t] → normalizeLogprobs encode [(x, y)] = some [(t, y)]) := by
  constructor
  · intro encode entries out h p hp
    rcases normalizeFrom_spec encode entries [] out h p hp with h0 | h1
    · exact absurd h0 (List.not_mem_nil p)
    · exact h1
  · intro encode x y t ht
    simp [normalizeLogprobs, normalizeFrom, ht, dictInsert]

/-- Witness for C9: an encoder sending `"hi"` to the single token 42
makes the normalizer reproduce the pair `(42, 1/2)` exactly. -/
theorem c9_normalizer_witness :
    normalizeLogprobs (fun s => if s = "hi" then [42] else [])
        [("hi", (1 : ℚ)/2)] = some [(42, (1 : ℚ)/2)] :=
  c9_normalizer_first_token_key.2 (fun s => if s = "hi" then [42] else [])
    "hi" ((1 : ℚ)/2) 42 (by decide)

/-- C10: `"gpt-3.5-turbo-instruct"` satisfies the chat-family test
(`startswith("gpt-3")`), but the membership test against the legacy
tuple is evaluated first, so `topk` dispatches it to the instruct branch
— every network call it ever issues, under any backend, is an instruct
call, never a chat call. -/
theorem c10_instruct_tuple_precedes_chat_test :
    dispatch "gpt-3.5-turbo-instruct" = some Branch.instruct ∧
    pyStartsWith "gpt-3.5-turbo-instruct" "gpt-3" = true ∧
    ∀ (backend : Branch → Nat → Except PyErr LogProbMap),
      ∀ b ∈ (topk "gpt-3.5-turbo-instruct" backend).calls, b = Branch.instruct := by
  refine ⟨by decide, by decide, ?_⟩
  intro backend b hb
  exact topkLoop_calls_all_eq _ backend Branch.instruct (by decide)
    max_api_retries 0 b hb

/-- Witness for C10: applied to an always-empty backend, under which
`topk` issues five calls, all on the instruct branch. -/
theorem c10_instruct_witness : Branch.instruct = Branch.instruct :=
  c10_instruct_tuple_precedes_chat_test.2.2
    (fun _ _ => Except.error PyErr.indexError) Branch.instruct (by decide)

end OpenLogProbs
